import Mathlib

/-!
Verification of the bitrate_scaler Home Assistant custom component.

Python 64-bit floats are modelled by `PyFloat`: an exact rational for finite
values plus NaN and signed infinity.  Decimal rounding (`round(x, p)` and
fixed-point `format`) is idealised to exact half-even rounding on rationals.
Strings are Lean strings; Python dicts with statically known keys are
structures; fallible operations return `Option`.
-/

/-- Model of a Python 64-bit float: NaN, signed infinity, or a finite value
(idealised as an exact rational). -/
inductive PyFloat where
  | nan : PyFloat
  | inf (neg : Bool) : PyFloat
  | fin (val : ℚ) : PyFloat
deriving DecidableEq, Repr

/-- Model of Python `math.isnan`. -/
def isNanB : PyFloat → Bool
  | .nan => true
  | _ => false

/-- Model of the Python comparison `x >= t` for a float `x` and a finite
threshold `t`: NaN compares false, +inf compares true, -inf compares false. -/
def pyGe (x : PyFloat) (t : ℚ) : Bool :=
  match x with
  | .nan => false
  | .inf neg => !neg
  | .fin q => decide (t ≤ q)

/-- Model of Python float division by a positive finite constant. -/
def pyDivC (x : PyFloat) (d : ℚ) : PyFloat :=
  match x with
  | .nan => .nan
  | .inf neg => .inf neg
  | .fin q => .fin (q / d)

/-- Round a rational to the nearest integer, ties to even (the rounding used
by Python `round` and fixed-point formatting, idealised over rationals). -/
def rnd2even (q : ℚ) : ℤ :=
  let f := ⌊q⌋
  if q - f < 1/2 then f
  else if 1/2 < q - f then f + 1
  else if f % 2 = 0 then f else f + 1

/-- Round a rational to `p` decimal places, ties to even. -/
def roundQ (q : ℚ) (p : ℕ) : ℚ :=
  (rnd2even (q * 10 ^ p) : ℚ) / 10 ^ p

/-- Model of Python `round(x, p)` on a float: NaN and infinities pass
through, finite values are rounded to `p` decimal places half-even. -/
def pyRound (x : PyFloat) (p : ℕ) : PyFloat :=
  match x with
  | .fin q => .fin (roundQ q p)
  | x => x

/-- Left-pad a string with zeros to length `p`. -/
def padZeros (p : ℕ) (s : String) : String :=
  String.mk (List.replicate (p - s.length) '0') ++ s

/-- Fixed-point rendering of a nonnegative rational with exactly `p`
fractional digits (no decimal point when `p = 0`). -/
def formatFixedNonneg (q : ℚ) (p : ℕ) : String :=
  let n := (rnd2even (q * 10 ^ p)).toNat
  let ipart := n / 10 ^ p
  let fpart := n % 10 ^ p
  if p = 0 then toString ipart
  else toString ipart ++ "." ++ padZeros p (toString fpart)

/-- Model of the Python fixed-point format `f"{q:.pf}"` for a finite value:
sign, then the magnitude with exactly `p` fractional digits. -/
def formatFixedQ (q : ℚ) (p : ℕ) : String :=
  if q < 0 then "-" ++ formatFixedNonneg (-q) p else formatFixedNonneg q p

/-- Model of the Python fixed-point format `f"{x:.pf}"` on any float.
Python renders non-finite values as `nan`, `inf`, `-inf`. -/
def formatPyFloat (x : PyFloat) (p : ℕ) : String :=
  match x with
  | .fin q => formatFixedQ q p
  | .inf false => "inf"
  | .inf true => "-inf"
  | .nan => "nan"

/-- Whitespace stripped by Python `float(str)`. -/
def isWsChar (c : Char) : Bool :=
  c = ' ' || c = '\t' || c = '\n' || c = '\r'

/-- Decimal value of a digit list (most significant first). -/
def digitsToNat (cs : List Char) : ℕ :=
  cs.foldl (fun a c => 10 * a + (c.toNat - 48)) 0

/-- The pieces of an accepted decimal float literal: sign, integer digits,
fraction digits, exponent sign and exponent digits (`ed = []` when the
literal has no exponent part). -/
structure DecParts where
  neg : Bool
  ip : List Char
  fp : List Char
  eneg : Bool
  ed : List Char
deriving DecidableEq, Repr

/-- Token classes accepted by Python `float(str)`. -/
inductive FloatTok where
  | nan : FloatTok
  | inf (neg : Bool) : FloatTok
  | dec (parts : DecParts) : FloatTok
deriving DecidableEq, Repr

/-- Lexical part of the Python builtin `float(s)`: recognise (after
whitespace stripping, lower-casing and sign splitting) `nan`, `inf`,
`infinity`, or a decimal literal `digits[.digits][e[sign]digits]`,
returning `none` where Python raises `ValueError`. -/
def floatTok (s : String) : Option FloatTok :=
  let cs0 := (s.toList.map Char.toLower).dropWhile isWsChar
  let cs1 := (cs0.reverse.dropWhile isWsChar).reverse
  let sgn : Bool × List Char :=
    match cs1 with
    | '-' :: rest => (true, rest)
    | '+' :: rest => (false, rest)
    | _ => (false, cs1)
  let neg := sgn.1
  let cs := sgn.2
  if cs = ['n', 'a', 'n'] then some .nan
  else if cs = ['i', 'n', 'f'] ∨ cs = ['i', 'n', 'f', 'i', 'n', 'i', 't', 'y'] then
    some (.inf neg)
  else
    let ip := cs.takeWhile Char.isDigit
    let rest0 := cs.dropWhile Char.isDigit
    let fpRest : List Char × List Char :=
      match rest0 with
      | '.' :: r => (r.takeWhile Char.isDigit, r.dropWhile Char.isDigit)
      | _ => ([], rest0)
    let fp := fpRest.1
    let rest := fpRest.2
    if ip = [] ∧ fp = [] then none
    else
      match rest with
      | [] => some (.dec ⟨neg, ip, fp, false, []⟩)
      | 'e' :: r =>
        let eds : Bool × List Char :=
          match r with
          | '-' :: r2 => (true, r2)
          | '+' :: r2 => (false, r2)
          | _ => (false, r)
        if !eds.2.isEmpty && eds.2.all Char.isDigit then
          some (.dec ⟨neg, ip, fp, eds.1, eds.2⟩)
        else none
      | _ => none

/-- Numeric value of an accepted decimal literal, idealised to an exact
rational (Python converts to the nearest binary double; that rounding, and
overflow to `OverflowError`, are outside the model). -/
def valOfParts (p : DecParts) : ℚ :=
  let mant : ℚ := (digitsToNat p.ip : ℚ) + (digitsToNat p.fp : ℚ) / 10 ^ p.fp.length
  let signed : ℚ := if p.neg then -mant else mant
  if p.ed = [] then signed
  else if p.eneg then signed / 10 ^ digitsToNat p.ed
  else signed * 10 ^ digitsToNat p.ed

/-- Model of the Python builtin `float(s)` on a string, returning `none`
where Python raises `ValueError`: tokenize, then value the literal.
Underscore digit separators are outside the modelled fragment. -/
def pyFloatOfString (s : String) : Option PyFloat :=
  (floatTok s).map fun t =>
    match t with
    | .nan => .nan
    | .inf neg => .inf neg
    | .dec p => .fin (valOfParts p)

/-! ## Constants (src/custom_components/bitrate_scaler/const.py) -/

def DOMAIN : String := "bitrate_scaler"
def DEFAULT_KBIT_THRESHOLD : ℤ := 1000
def DEFAULT_MBIT_THRESHOLD : ℤ := 1000000
def MODE_DYNAMIC_UNIT : String := "dynamic_unit"
def MODE_FIXED_WITH_ATTR : String := "fixed_unit_with_attribute"
def DEFAULT_MODE : String := MODE_FIXED_WITH_ATTR
def DEFAULT_PRECISION : ℤ := 2

/-! ## Scaling logic (src/custom_components/bitrate_scaler/sensor.py) -/

/-- `BitrateScalerSensor._scale` (sensor.py lines 164-175): scale bit/s to
kbit/s or Mbit/s; thresholds are inclusive for the upper tiers. -/
def scaleFn (kb_thr mb_thr : ℚ) (raw_bits : PyFloat) : PyFloat × String :=
  if isNanB raw_bits then (.nan, "bit/s")
  else if pyGe raw_bits mb_thr then (pyDivC raw_bits 1000000, "Mbit/s")
  else if pyGe raw_bits kb_thr then (pyDivC raw_bits 1000, "kbit/s")
  else (raw_bits, "bit/s")

/-- The `scale` operation as written in the spec (section 4.1), for
comparison with the implementation `scaleFn`: NaN passes through with unit
bit/s, else the Mbit tier is tested first, then the kbit tier, each an
inclusive lower bound. -/
def spec_scale (kbit_threshold mbit_threshold : ℚ) (raw : PyFloat) : PyFloat × String :=
  if raw = PyFloat.nan then (.nan, "bit/s")
  else if pyGe raw mbit_threshold then (pyDivC raw 1000000, "Mbit/s")
  else if pyGe raw kbit_threshold then (pyDivC raw 1000, "kbit/s")
  else (raw, "bit/s")

/-- `BitrateScalerSensor.available` (sensor.py lines 148-158): false when the
source has no state, else true exactly when `float(state)` succeeds.  The
`try`/`except` is modelled by the parser returning `Option`, so no exception
escapes by construction. -/
def available (src_state : Option String) : Bool :=
  match src_state with
  | none => false
  | some st => (pyFloatOfString st).isSome

/-- The mutable display cache of a `BitrateScalerSensor`
(`_display_unit`, `_display_value`). -/
structure DisplayCache where
  display_unit : String
  display_value : Option PyFloat
deriving DecidableEq, Repr

/-- Initial cache set in `__init__` (sensor.py lines 95-96). -/
def initCache : DisplayCache := ⟨"bit/s", none⟩

/-- `BitrateScalerSensor.native_value` (sensor.py lines 196-224) as a state
transformer: given the source state (None, or its state string) and the
current cache, return the emitted native value and the updated cache.
A missing source returns None and leaves the cache untouched; a failed
`float` parse returns None and clears the cache; otherwise the scaled pair
is cached and the mode decides whether the scaled or the raw value is
returned, rounded to the configured precision. -/
def native_value_step (mode : String) (precision : ℕ) (kb_thr mb_thr : ℚ)
    (src_state : Option String) (c : DisplayCache) : Option PyFloat × DisplayCache :=
  match src_state with
  | none => (none, c)
  | some st =>
    match pyFloatOfString st with
    | none => (none, ⟨"bit/s", none⟩)
    | some raw =>
      let sc := scaleFn kb_thr mb_thr raw
      let c' : DisplayCache := ⟨sc.2, some sc.1⟩
      if mode = MODE_DYNAMIC_UNIT then (some (pyRound sc.1 precision), c')
      else (some (pyRound raw precision), c')

/-- `BitrateScalerSensor.native_unit_of_measurement` (sensor.py lines
226-237): the cached display unit in dynamic mode, the constant bit/s
otherwise. -/
def native_unit_of_measurement (mode : String) (c : DisplayCache) : String :=
  if mode = MODE_DYNAMIC_UNIT then c.display_unit else "bit/s"

/-- The attribute map returned by `extra_state_attributes` (sensor.py lines
181-194).  The keys are statically known, so the dict is a structure; the
conditionally present `display_value_str` key is an `Option`. -/
structure Attrs where
  source_entity_id : String
  display_unit : String
  mode : String
  precision : ℕ
  kb_threshold_bits : ℚ
  mb_threshold_bits : ℚ
  display_value_str : Option String
deriving DecidableEq, Repr

/-- `BitrateScalerSensor.extra_state_attributes` (sensor.py lines 181-194):
metadata plus, when the cached display value exists and is not NaN, the
string `f"{value:.pf} {unit}"`. -/
def extra_state_attributes (source mode : String) (precision : ℕ)
    (kb_thr mb_thr : ℚ) (c : DisplayCache) : Attrs :=
  { source_entity_id := source
    display_unit := c.display_unit
    mode := mode
    precision := precision
    kb_threshold_bits := kb_thr
    mb_threshold_bits := mb_thr
    display_value_str :=
      match c.display_value with
      | some v =>
        if isNanB v then none
        else some (formatPyFloat v precision ++ " " ++ c.display_unit)
      | none => none }

/-! ## Naming and construction (sensor.py) -/

/-- Python truthiness of an `Optional[str]`: `None` and the empty string are
falsy. -/
def pyTruthy (s : Option String) : Bool :=
  match s with
  | none => false
  | some t => t ≠ ""

/-- `BitrateScalerSensor._derive_name` (sensor.py lines 137-146): the alias
if truthy, else the source's `friendly_name` attribute if present and
truthy, else the source entity id — suffixed with the literal marker
`" (skaliert)"`.  `friendly` collapses the state lookup: `none` when the
source has no state or no truthy `friendly_name` value. -/
def derive_name (name_override friendly : Option String) (source : String) : String :=
  if pyTruthy name_override then name_override.getD "" ++ " (skaliert)"
  else if pyTruthy friendly then friendly.getD "" ++ " (skaliert)"
  else source ++ " (skaliert)"

/-- The naming policy as stated in the spec (section 4.1), for comparison
with `derive_name`: the first defined (non-empty) of alias, source friendly
name, source identifier, plus the fixed suffix. -/
def spec_display_name (aliasName friendly : Option String) (ident : String) : String :=
  ((aliasName.filter (fun a => a ≠ "")).getD
    ((friendly.filter (fun f => f ≠ "")).getD ident)) ++ " (skaliert)"

/-- The immutable part of a constructed `BitrateScalerSensor` plus its
mutable display cache. -/
structure Sensor where
  source : String
  mode : String
  precision : ℕ
  kb_thr : ℚ
  mb_thr : ℚ
  unique_id : String
  attr_name : String
  cache : DisplayCache
deriving DecidableEq, Repr

/-- `BitrateScalerSensor.__init__` (sensor.py lines 74-112): stores the
configuration, builds the unique id, derives the display name once from the
alias and the source's friendly name as observed at construction time, and
initialises the display cache. -/
def mkSensor (entry_id source : String) (name_override : Option String)
    (mode : String) (precision : ℕ) (kb_thr mb_thr : ℚ)
    (friendly_at_creation : Option String) : Sensor :=
  { source := source
    mode := mode
    precision := precision
    kb_thr := kb_thr
    mb_thr := mb_thr
    unique_id := DOMAIN ++ ":" ++ entry_id ++ ":" ++ source
    attr_name := derive_name name_override friendly_at_creation source
    cache := initCache }

/-- One source-changed update of a sensor: run `native_value_step` against
the current source state and store the new cache.  Nothing else of the
sensor is touched — in particular `attr_name` is never recomputed. -/
def sensorUpdate (s : Sensor) (src_state : Option String) : Option PyFloat × Sensor :=
  let r := native_value_step s.mode s.precision s.kb_thr s.mb_thr src_state s.cache
  (r.1, { s with cache := r.2 })

/-! ## Config flow (src/custom_components/bitrate_scaler/config_flow.py) -/

/-- UTF-8 encoding of one character, as byte values. -/
def utf8Bytes (c : Char) : List ℕ :=
  let n := c.toNat
  if n < 128 then [n]
  else if n < 2048 then [192 ||| (n >>> 6), 128 ||| (n &&& 63)]
  else if n < 65536 then
    [224 ||| (n >>> 12), 128 ||| ((n >>> 6) &&& 63), 128 ||| (n &&& 63)]
  else
    [240 ||| (n >>> 18), 128 ||| ((n >>> 12) &&& 63),
     128 ||| ((n >>> 6) &&& 63), 128 ||| (n &&& 63)]

/-- UTF-8 encoding of a string (Python `str.encode("utf-8")`). -/
def strUtf8 (s : String) : List ℕ :=
  (s.toList.map utf8Bytes).flatten

/-- Truncate to a 32-bit word. -/
def w32 (n : ℕ) : ℕ := n % 4294967296

/-- Rotate a 32-bit word left by `b` bits. -/
def rotl32 (x b : ℕ) : ℕ :=
  w32 ((x <<< b) ||| (x >>> (32 - b)))

/-- SHA-1 big-endian 32-bit words of one 64-byte chunk. -/
def sha1Words (chunk : List ℕ) : List ℕ :=
  (List.range 16).map fun i =>
    (chunk.getD (4 * i) 0) <<< 24 ||| (chunk.getD (4 * i + 1) 0) <<< 16 |||
    (chunk.getD (4 * i + 2) 0) <<< 8 ||| chunk.getD (4 * i + 3) 0

/-- Extend 16 message words to the 80 SHA-1 schedule words. -/
def sha1Extend (ws : List ℕ) : List ℕ :=
  (List.range 64).foldl
    (fun acc _ =>
      let k := acc.length
      acc ++ [rotl32 ((acc.getD (k - 3) 0) ^^^ (acc.getD (k - 8) 0) ^^^
                      (acc.getD (k - 14) 0) ^^^ (acc.getD (k - 16) 0)) 1])
    ws

/-- One SHA-1 compression round. -/
def sha1Round (i wi : ℕ) (st : ℕ × ℕ × ℕ × ℕ × ℕ) : ℕ × ℕ × ℕ × ℕ × ℕ :=
  let a := st.1; let b := st.2.1; let c := st.2.2.1; let d := st.2.2.2.1; let e := st.2.2.2.2
  let fk : ℕ × ℕ :=
    if i < 20 then ((b &&& c) ||| ((b ^^^ 4294967295) &&& d), 1518500249)
    else if i < 40 then (b ^^^ c ^^^ d, 1859775393)
    else if i < 60 then ((b &&& c) ||| (b &&& d) ||| (c &&& d), 2400959708)
    else (b ^^^ c ^^^ d, 3395469782)
  let temp := w32 (rotl32 a 5 + fk.1 + e + fk.2 + wi)
  (temp, a, rotl32 b 30, c, d)

/-- Process one 64-byte chunk of the SHA-1 state. -/
def sha1Chunk (h : ℕ × ℕ × ℕ × ℕ × ℕ) (chunk : List ℕ) : ℕ × ℕ × ℕ × ℕ × ℕ :=
  let ws := sha1Extend (sha1Words chunk)
  let st := (List.range 80).foldl (fun st i => sha1Round i (ws.getD i 0) st) h
  (w32 (h.1 + st.1), w32 (h.2.1 + st.2.1), w32 (h.2.2.1 + st.2.2.1),
   w32 (h.2.2.2.1 + st.2.2.2.1), w32 (h.2.2.2.2 + st.2.2.2.2))

/-- Lower-case hex digit of a value below 16. -/
def hexDigit (n : ℕ) : Char :=
  if n < 10 then Char.ofNat (48 + n) else Char.ofNat (87 + n)

/-- Eight lower-case hex digits of a 32-bit word. -/
def hex8 (n : ℕ) : String :=
  String.mk ((List.range 8).map fun i => hexDigit ((n >>> (28 - 4 * i)) &&& 15))

/-- SHA-1 hex digest of the UTF-8 bytes of a string
(Python `hashlib.sha1(s.encode("utf-8")).hexdigest()`). -/
def sha1hex (s : String) : String :=
  let msg := strUtf8 s
  let ml := 8 * msg.length
  let padded := msg ++ 128 :: List.replicate ((119 - msg.length % 64) % 64) 0 ++
    ((List.range 8).map fun i => (ml >>> (56 - 8 * i)) &&& 255)
  let chunks := (List.range (padded.length / 64)).map fun i => (padded.drop (64 * i)).take 64
  let h := chunks.foldl sha1Chunk (1732584193, 4023233417, 2562383102, 271733878, 3285377520)
  hex8 h.1 ++ hex8 h.2.1 ++ hex8 h.2.2.1 ++ hex8 h.2.2.2.1 ++ hex8 h.2.2.2.2

/-- Python `sorted` on a list of strings (lexicographic by code point);
extensionally characterised as the sorted permutation of the input. -/
def sortedStrings (l : List String) : List String :=
  List.insertionSort (· ≤ ·) l

/-- The deterministic unique id computed in
`BitrateScalerConfigFlow.async_step_user` (config_flow.py lines 110-112):
SHA-1 hex digest of the comma-joined sorted source list. -/
def uniqueId (sources : List String) : String :=
  sha1hex (String.intercalate "," (sortedStrings sources))

/-- The validators of `_user_schema` (config_flow.py lines 55-73) on the
non-selector fields, which are identical to those of the options schema
(lines 162-178): mode must be one of the two mode strings, precision an
integer in [0,4], `threshold_kbit` an integer at least 1, `threshold_mbit`
an integer at least 1000.  No relation between the two thresholds is
checked. -/
def user_schema_accepts (mode : String) (precision threshold_kbit threshold_mbit : ℤ) : Bool :=
  (mode == MODE_FIXED_WITH_ATTR || mode == MODE_DYNAMIC_UNIT) &&
  decide (0 ≤ precision) && decide (precision ≤ 4) &&
  decide (1 ≤ threshold_kbit) && decide (1000 ≤ threshold_mbit)

/-- The fields read from the submitted form by both flows. -/
structure UserInput where
  mode : String
  precision : ℤ
  threshold_kbit : ℤ
  threshold_mbit : ℤ
  sources : List String
deriving DecidableEq, Repr

/-- The `data` dict stored in a created config entry
(config_flow.py lines 116-125). -/
structure EntryData where
  mode : String
  precision : ℤ
  kbps : ℤ
  mbps : ℤ
  sources : List String
  aliases : List (String × String)
deriving DecidableEq, Repr

/-- Outcome of one invocation of the setup flow step. -/
inductive FlowResult where
  | showForm (step_id : String) (errors : List (String × String))
  | createEntry (title : String) (data : EntryData)
  | abortAlreadyConfigured
deriving DecidableEq, Repr

/-- Python dict assignment `d[k] = v` on a small string-keyed dict
represented as an association list. -/
def dictInsert (d : List (String × String)) (k v : String) : List (String × String) :=
  if d.any (fun kv => kv.1 == k) then
    d.map fun kv => if kv.1 == k then (k, v) else kv
  else d ++ [(k, v)]

/-- `BitrateScalerConfigFlow.async_step_user` (config_flow.py lines 83-128):
an empty candidate list pre-populates a form error; with no input the form
is shown; an empty source selection re-shows the form with the
`no_sources` error; otherwise the unique id is computed and the flow aborts
when it is already configured, else a config entry is created. -/
def async_step_user (candidates configured_unique_ids : List String)
    (user_input : Option UserInput) : FlowResult :=
  let errors : List (String × String) :=
    if candidates = [] then [("sources", "no_matching_entities")] else []
  match user_input with
  | none => .showForm "user" errors
  | some inp =>
    if inp.sources = [] then
      .showForm "user" (dictInsert errors "sources" "no_sources")
    else
      let unique_id := uniqueId inp.sources
      if unique_id ∈ configured_unique_ids then .abortAlreadyConfigured
      else
        .createEntry ("Bitrate Scaler (" ++ toString inp.sources.length ++ " Quellen)")
          { mode := inp.mode
            precision := inp.precision
            kbps := inp.threshold_kbit
            mbps := inp.threshold_mbit
            sources := inp.sources
            aliases := [] }

/-- Outcome of step 1 of the options flow. -/
inductive OptionsInitResult where
  | showForm (errors : List (String × String))
  | proceedToAliases (mode : String) (precision threshold_kbit threshold_mbit : ℤ)
      (sources : List String)
deriving DecidableEq, Repr

/-- `BitrateScalerOptionsFlow.async_step_init` (config_flow.py lines
150-202): with no input the form is shown (with an error when no candidate
entities exist); an empty source selection re-shows the form with the
`no_sources` error; otherwise the buffered values move on to the aliases
step. -/
def async_step_init (candidates : List String) (user_input : Option UserInput) :
    OptionsInitResult :=
  match user_input with
  | none =>
    if candidates = [] then .showForm [("sources", "no_matching_entities")]
    else .showForm []
  | some inp =>
    if inp.sources = [] then .showForm [("sources", "no_sources")]
    else .proceedToAliases inp.mode inp.precision inp.threshold_kbit inp.threshold_mbit
      inp.sources

/-! ## Theorems -/

/-- Helper: scaling never introduces NaN — the scaled value of a non-NaN
input is non-NaN in every branch. -/
theorem scaleFn_not_nan (kb mb : ℚ) (raw : PyFloat) (h : raw ≠ PyFloat.nan) :
    isNanB (scaleFn kb mb raw).1 = false := by
  cases raw <;> unfold scaleFn <;> split_ifs <;> simp_all [isNanB, pyDivC]

/-- C1: for valid thresholds (mbit > kbit > 0) and every float `raw`, the
implemented `_scale` equals the spec's piecewise function; a raw equal to a
threshold lands in that threshold's tier (inclusive lower bounds, highest
tier tested first), and a raw satisfying both thresholds lands in the
Mbit/s tier. -/
theorem C1_scale_piecewise (kb mb : ℚ) (hk : 0 < kb) (hm : kb < mb) :
    (∀ raw : PyFloat, scaleFn kb mb raw = spec_scale kb mb raw)
    ∧ scaleFn kb mb (PyFloat.fin mb) = (PyFloat.fin (mb / 1000000), "Mbit/s")
    ∧ scaleFn kb mb (PyFloat.fin kb) = (PyFloat.fin (kb / 1000), "kbit/s")
    ∧ (∀ raw, pyGe raw mb = true → pyGe raw kb = true →
        (scaleFn kb mb raw).2 = "Mbit/s") := by
  refine ⟨?_, ?_, ?_, ?_⟩
  · intro raw; cases raw <;> simp [scaleFn, spec_scale, isNanB]
  · simp [scaleFn, isNanB, pyGe, pyDivC]
  · simp [scaleFn, isNanB, pyGe, pyDivC, not_le.mpr hm]
  · intro raw h1 h2; cases raw <;> simp_all [scaleFn, isNanB, pyGe]

/-- Witness for C1 at the spec's Scenario 4: default thresholds, raw exactly
at the Mbit boundary. -/
theorem C1_scale_piecewise_witness :
    scaleFn 1000 1000000 (PyFloat.fin 1000000) = (PyFloat.fin 1, "Mbit/s") := by
  have h := (C1_scale_piecewise 1000 1000000 (by norm_num) (by norm_num)).2.1
  rw [h]; norm_num

/-- C2 (amended): availability is false exactly when the source has no state
or its state string fails to parse as a number at all; finiteness is not
checked, so states parsing to NaN or infinity still report available.  The
parse is a total `Option`-valued function, so no exception escapes. -/
theorem C2_available_iff_parse (st : Option String) :
    available st = false ↔ st = none ∨ ∃ s, st = some s ∧ pyFloatOfString s = none := by
  cases st with
  | none => simp [available]
  | some s =>
    cases h : pyFloatOfString s with
    | none => simp [available, h]
    | some v => simp [available, h]

/-- C2 counterexample: the state string `"nan"` parses to a non-finite
value, yet the sensor reports available — refuting the claim that
non-finite parses report unavailable. -/
theorem C2_nan_state_reports_available :
    available (some "nan") = true ∧ pyFloatOfString "nan" = some PyFloat.nan := by
  constructor <;> decide


/-- Helper: half-even rounding fixes integers. -/
theorem rnd2even_intCast (z : ℤ) : rnd2even (z : ℚ) = z := by
  simp [rnd2even, Int.floor_intCast]

/-- Helper: a tokenized decimal literal parses to its rational value. -/
theorem pyFloatOfString_dec (s : String) (p : DecParts)
    (h : floatTok s = some (FloatTok.dec p)) :
    pyFloatOfString s = some (PyFloat.fin (valOfParts p)) := by
  simp [pyFloatOfString, h]

/-- Helper: fixed-point formatting of a nonnegative rational whose scaled
value is the natural number `z`. -/
theorem formatFixedQ_nonneg_int (z : ℕ) (q : ℚ) (p : ℕ) (hq : ¬ q < 0)
    (h : q * 10 ^ p = (z : ℚ)) :
    formatFixedQ q p =
      (if p = 0 then toString (z / 10 ^ p)
       else toString (z / 10 ^ p) ++ "." ++ padZeros p (toString (z % 10 ^ p))) := by
  have hz : rnd2even (q * 10 ^ p) = (z : ℤ) := by
    rw [h]
    exact_mod_cast rnd2even_intCast (z : ℤ)
  simp [formatFixedQ, formatFixedNonneg, hq, hz]

/-- Helper: the state string `2500000` parses to the finite value 2500000. -/
theorem parse_2500000 : pyFloatOfString "2500000" = some (PyFloat.fin 2500000) := by
  rw [pyFloatOfString_dec _ ⟨false, ['2', '5', '0', '0', '0', '0', '0'], [], false, []⟩
    (by decide)]
  norm_num [valOfParts,
    show digitsToNat ['2', '5', '0', '0', '0', '0', '0'] = 2500000 from by decide,
    show digitsToNat ([] : List Char) = 0 from rfl]

/-- Helper: the state string `1500` parses to the finite value 1500. -/
theorem parse_1500 : pyFloatOfString "1500" = some (PyFloat.fin 1500) := by
  rw [pyFloatOfString_dec _ ⟨false, ['1', '5', '0', '0'], [], false, []⟩ (by decide)]
  norm_num [valOfParts,
    show digitsToNat ['1', '5', '0', '0'] = 1500 from by decide,
    show digitsToNat ([] : List Char) = 0 from rfl]

/-- Helper: 2500000 bit/s scales to 2.5 Mbit/s under default thresholds. -/
theorem scale_2500000 :
    scaleFn 1000 1000000 (PyFloat.fin 2500000) = (PyFloat.fin (5/2), "Mbit/s") := by
  simp [scaleFn, isNanB, pyGe, pyDivC]
  norm_num

/-- Helper: 1500 bit/s scales to 1.5 kbit/s under default thresholds. -/
theorem scale_1500 :
    scaleFn 1000 1000000 (PyFloat.fin 1500) = (PyFloat.fin (3/2), "kbit/s") := by
  simp [scaleFn, isNanB, pyGe, pyDivC]
  norm_num

/-- C3: in fixed_unit_with_attribute mode, for a source state parsing to a
finite reading `q`, valid thresholds, and precision in [0,4]: the primary
value is `round(raw, precision)`, the primary unit is the constant bit/s,
and the display attribute is the scaled value in fixed-point format with
exactly `precision` fractional digits, one space, and the scaled unit. -/
theorem C3_fixed_mode_presentation (src s : String) (q kb mb : ℚ) (prec : ℕ)
    (hk : 0 < kb) (hm : kb < mb) (hp : prec ≤ 4)
    (hparse : pyFloatOfString s = some (PyFloat.fin q)) (c : DisplayCache) :
    (native_value_step MODE_FIXED_WITH_ATTR prec kb mb (some s) c).1
        = some (PyFloat.fin (roundQ q prec))
    ∧ native_unit_of_measurement MODE_FIXED_WITH_ATTR
        (native_value_step MODE_FIXED_WITH_ATTR prec kb mb (some s) c).2 = "bit/s"
    ∧ (extra_state_attributes src MODE_FIXED_WITH_ATTR prec kb mb
        (native_value_step MODE_FIXED_WITH_ATTR prec kb mb (some s) c).2).display_value_str
      = some (formatPyFloat (scaleFn kb mb (PyFloat.fin q)).1 prec ++ " "
          ++ (scaleFn kb mb (PyFloat.fin q)).2) := by
  have hnn := scaleFn_not_nan kb mb (PyFloat.fin q) (by simp)
  refine ⟨?_, ?_, ?_⟩ <;>
    simp [native_value_step, hparse, native_unit_of_measurement,
      extra_state_attributes, pyRound, hnn, MODE_FIXED_WITH_ATTR, MODE_DYNAMIC_UNIT]

/-- Witness for C3 at the spec's Scenario 5: raw 2500000, precision 2,
default thresholds — primary 2500000 in bit/s, display attribute
`2.50 Mbit/s`. -/
theorem C3_fixed_mode_presentation_witness :
    (native_value_step MODE_FIXED_WITH_ATTR 2 1000 1000000 (some "2500000") initCache).1
        = some (PyFloat.fin 2500000)
    ∧ (extra_state_attributes "sensor.wan.rx" MODE_FIXED_WITH_ATTR 2 1000 1000000
        (native_value_step MODE_FIXED_WITH_ATTR 2 1000 1000000
          (some "2500000") initCache).2).display_value_str
      = some "2.50 Mbit/s" := by
  have h := C3_fixed_mode_presentation "sensor.wan.rx" "2500000" 2500000 1000 1000000 2
    (by norm_num) (by norm_num) (by norm_num) parse_2500000 initCache
  have hr : roundQ (2500000 : ℚ) 2 = 2500000 := by
    unfold roundQ
    rw [show ((2500000 : ℚ) * 10 ^ 2) = ((250000000 : ℤ) : ℚ) by norm_num, rnd2even_intCast]
    norm_num
  have hfmt : formatPyFloat (PyFloat.fin (5/2)) 2 = "2.50" := by
    simp only [formatPyFloat]
    rw [formatFixedQ_nonneg_int 250 _ _ (by norm_num) (by norm_num)]
    decide
  refine ⟨?_, ?_⟩
  · rw [h.1, hr]
  · rw [h.2.2, scale_2500000]
    show some (formatPyFloat (PyFloat.fin (5/2)) 2 ++ " " ++ "Mbit/s") = some "2.50 Mbit/s"
    rw [hfmt]
    decide

/-- C4 (amended): in dynamic_unit mode the primary value is
`round(scale(raw).value, precision)` and the primary unit is
`scale(raw).unit`; but — contrary to the claim — the display attribute
string is still produced, exactly as in fixed mode, whenever the reading is
not NaN. -/
theorem C4_dynamic_mode_presentation (src s : String) (raw : PyFloat) (kb mb : ℚ) (prec : ℕ)
    (hk : 0 < kb) (hm : kb < mb) (hp : prec ≤ 4)
    (hparse : pyFloatOfString s = some raw) (c : DisplayCache) :
    (native_value_step MODE_DYNAMIC_UNIT prec kb mb (some s) c).1
        = some (pyRound (scaleFn kb mb raw).1 prec)
    ∧ native_unit_of_measurement MODE_DYNAMIC_UNIT
        (native_value_step MODE_DYNAMIC_UNIT prec kb mb (some s) c).2
      = (scaleFn kb mb raw).2
    ∧ (raw ≠ PyFloat.nan →
        (extra_state_attributes src MODE_DYNAMIC_UNIT prec kb mb
          (native_value_step MODE_DYNAMIC_UNIT prec kb mb (some s) c).2).display_value_str
        = some (formatPyFloat (scaleFn kb mb raw).1 prec ++ " " ++ (scaleFn kb mb raw).2)) := by
  refine ⟨?_, ?_, fun hne => ?_⟩
  · simp [native_value_step, hparse, MODE_DYNAMIC_UNIT]
  · simp [native_value_step, hparse, native_unit_of_measurement, MODE_DYNAMIC_UNIT]
  · simp [native_value_step, hparse, extra_state_attributes,
      scaleFn_not_nan kb mb raw hne, MODE_DYNAMIC_UNIT]

/-- Witness for C4 (amended) at the spec's Scenario 2: raw 1500, default
thresholds, precision 2 — primary 1.5 with unit kbit/s. -/
theorem C4_dynamic_mode_presentation_witness :
    (native_value_step MODE_DYNAMIC_UNIT 2 1000 1000000 (some "1500") initCache).1
        = some (PyFloat.fin (3/2))
    ∧ native_unit_of_measurement MODE_DYNAMIC_UNIT
        (native_value_step MODE_DYNAMIC_UNIT 2 1000 1000000 (some "1500") initCache).2
      = "kbit/s" := by
  have h := C4_dynamic_mode_presentation "sensor.wan.rx" "1500" (PyFloat.fin 1500)
    1000 1000000 2 (by norm_num) (by norm_num) (by norm_num) parse_1500 initCache
  have hr : roundQ ((3 : ℚ)/2) 2 = 3/2 := by
    unfold roundQ
    rw [show (((3 : ℚ)/2) * 10 ^ 2) = ((150 : ℤ) : ℚ) by norm_num, rnd2even_intCast]
    norm_num
  refine ⟨?_, ?_⟩
  · rw [h.1, scale_1500]
    show some (pyRound (PyFloat.fin (3/2)) 2) = some (PyFloat.fin (3/2))
    simp [pyRound, hr]
  · rw [h.2.1, scale_1500]

/-- C4 counterexample: in dynamic_unit mode the attribute map does contain
the display string (here `1.50 kbit/s`), refuting the claim that no
separate display attribute string is produced in that mode. -/
theorem C4_dynamic_mode_emits_display_attribute :
    (extra_state_attributes "sensor.wan.rx" MODE_DYNAMIC_UNIT 2 1000 1000000
      (native_value_step MODE_DYNAMIC_UNIT 2 1000 1000000
        (some "1500") initCache).2).display_value_str
    = some "1.50 kbit/s" := by
  have hfmt : formatFixedQ ((3 : ℚ)/2) 2 = "1.50" := by
    rw [formatFixedQ_nonneg_int 150 _ _ (by norm_num) (by norm_num)]
    decide
  simp [native_value_step, parse_1500, scale_1500, extra_state_attributes,
    isNanB, formatPyFloat, hfmt, MODE_DYNAMIC_UNIT]

/-- C5 (amended): the configuration schemas (setup form and options form)
enforce only independent lower bounds — an accepted configuration satisfies
threshold_kbit >= 1 and threshold_mbit >= 1000 (hence both positive) — and
never the cross-field relation mbit > kbit. -/
theorem C5_schema_lower_bounds (mode : String) (p kbit mbit : ℤ)
    (h : user_schema_accepts mode p kbit mbit = true) :
    1 ≤ kbit ∧ 1000 ≤ mbit ∧ 0 < kbit ∧ 0 < mbit ∧ 0 ≤ p ∧ p ≤ 4
    ∧ (mode = MODE_FIXED_WITH_ATTR ∨ mode = MODE_DYNAMIC_UNIT) := by
  simp only [user_schema_accepts, Bool.and_eq_true, Bool.or_eq_true, beq_iff_eq,
    decide_eq_true_eq] at h
  obtain ⟨⟨⟨⟨hm, hp0⟩, hp4⟩, hk⟩, hb⟩ := h
  exact ⟨hk, hb, by omega, by omega, hp0, hp4, hm⟩

/-- Witness for C5 (amended) at the default configuration values. -/
theorem C5_schema_lower_bounds_witness :
    1 ≤ (1000 : ℤ) ∧ 1000 ≤ (1000000 : ℤ) ∧ 0 < (1000 : ℤ) ∧ 0 < (1000000 : ℤ)
    ∧ 0 ≤ (2 : ℤ) ∧ (2 : ℤ) ≤ 4
    ∧ (MODE_FIXED_WITH_ATTR = MODE_FIXED_WITH_ATTR
        ∨ MODE_FIXED_WITH_ATTR = MODE_DYNAMIC_UNIT) :=
  C5_schema_lower_bounds MODE_FIXED_WITH_ATTR 2 1000 1000000 (by decide)

/-- C5 counterexample: the input threshold_kbit = 2000, threshold_mbit =
1000 (so mbit <= kbit) passes every schema validator and the setup flow
creates a config entry with those thresholds — refuting the claim that
configuration-time validation rejects mbit <= kbit. -/
theorem C5_cross_threshold_not_validated :
    user_schema_accepts MODE_FIXED_WITH_ATTR 2 2000 1000 = true
    ∧ ¬ ((1000 : ℤ) > 2000)
    ∧ async_step_user ["sensor.a.rx"] []
        (some ⟨MODE_FIXED_WITH_ATTR, 2, 2000, 1000, ["sensor.a.rx"]⟩)
      = FlowResult.createEntry "Bitrate Scaler (1 Quellen)"
          ⟨MODE_FIXED_WITH_ATTR, 2, 2000, 1000, ["sensor.a.rx"], []⟩ := by
  refine ⟨by decide, by decide, ?_⟩
  simp [async_step_user]
  decide

/-- C6: a source update whose state string fails to parse makes
`native_value` return None and clear the cache (display value None, display
unit reset to bit/s); the display string is then absent from the attribute
map, and stays absent across further failing or missing updates, until the
next successful parse. -/
theorem C6_parse_failure_clears (mode src s : String) (prec : ℕ) (kb mb : ℚ)
    (c : DisplayCache) (hfail : pyFloatOfString s = none) :
    native_value_step mode prec kb mb (some s) c = (none, ⟨"bit/s", none⟩)
    ∧ (extra_state_attributes src mode prec kb mb ⟨"bit/s", none⟩).display_value_str = none
    ∧ (∀ s2, pyFloatOfString s2 = none →
        (native_value_step mode prec kb mb (some s2) ⟨"bit/s", none⟩).2 = ⟨"bit/s", none⟩)
    ∧ (native_value_step mode prec kb mb none ⟨"bit/s", none⟩).2 = ⟨"bit/s", none⟩ := by
  refine ⟨by simp [native_value_step, hfail], rfl, fun s2 h2 => by simp [native_value_step, h2],
    rfl⟩

/-- Witness for C6: the non-numeric state `unknown` in fixed mode with the
default configuration. -/
theorem C6_parse_failure_clears_witness :
    native_value_step MODE_FIXED_WITH_ATTR 2 1000 1000000 (some "unknown")
        ⟨"Mbit/s", some (PyFloat.fin (5/2))⟩ = (none, ⟨"bit/s", none⟩)
    ∧ (extra_state_attributes "sensor.wan.rx" MODE_FIXED_WITH_ATTR 2 1000 1000000
        ⟨"bit/s", none⟩).display_value_str = none := by
  have h := C6_parse_failure_clears MODE_FIXED_WITH_ATTR "sensor.wan.rx" "unknown" 2
    1000 1000000 ⟨"Mbit/s", some (PyFloat.fin (5/2))⟩ (by decide)
  exact ⟨h.1, h.2.1⟩

/-- C7: an empty source selection is rejected by both flows — the setup
step re-shows its form with the no_sources error (for any candidate list),
every created entry carries the submitted non-empty source list, and the
options step likewise re-shows its form. -/
theorem C7_empty_sources_rejected :
    (∀ candidates configured (inp : UserInput), inp.sources = [] →
        async_step_user candidates configured (some inp)
          = FlowResult.showForm "user" [("sources", "no_sources")])
    ∧ (∀ candidates configured (inp : UserInput) title data,
        async_step_user candidates configured (some inp) = FlowResult.createEntry title data →
        data.sources = inp.sources ∧ inp.sources ≠ [])
    ∧ (∀ candidates (inp : UserInput), inp.sources = [] →
        async_step_init candidates (some inp)
          = OptionsInitResult.showForm [("sources", "no_sources")]) := by
  refine ⟨?_, ?_, ?_⟩
  · intro cand conf inp h
    by_cases hc : cand = [] <;> simp [async_step_user, h, hc, dictInsert]
  · intro cand conf inp title data h
    by_cases hs : inp.sources = []
    · simp [async_step_user, hs] at h
    · refine ⟨?_, hs⟩
      simp only [async_step_user, if_neg hs] at h
      by_cases hm : uniqueId inp.sources ∈ conf
      · simp [hm] at h
      · simp [hm] at h
        exact h.2 ▸ rfl
  · intro cand inp h
    simp [async_step_init, h]

/-- Witness for C7: an empty selection against both flows. -/
theorem C7_empty_sources_rejected_witness :
    async_step_user ["sensor.a.rx"] [] (some ⟨MODE_FIXED_WITH_ATTR, 2, 1000, 1000000, []⟩)
      = FlowResult.showForm "user" [("sources", "no_sources")]
    ∧ async_step_init [] (some ⟨MODE_DYNAMIC_UNIT, 0, 1, 1000, []⟩)
      = OptionsInitResult.showForm [("sources", "no_sources")] :=
  ⟨C7_empty_sources_rejected.1 _ _ _ rfl, C7_empty_sources_rejected.2.2 _ _ rfl⟩

/-- C8 (amended): a derived sensor's display name is the first defined
(non-empty) of alias, source friendly name, source identifier, suffixed
with the fixed literal marker `" (skaliert)"` (not `" (scaled)"`), and it
is stored at construction — a source-changed update never alters it, so a
later friendly-name change on the source has no effect on the name. -/
theorem C8_naming_policy (entry_id src mode : String) (ov friendly : Option String)
    (prec : ℕ) (kb mb : ℚ) (st : Option String) :
    (mkSensor entry_id src ov mode prec kb mb friendly).attr_name
      = spec_display_name ov friendly src
    ∧ (sensorUpdate (mkSensor entry_id src ov mode prec kb mb friendly) st).2.attr_name
      = (mkSensor entry_id src ov mode prec kb mb friendly).attr_name := by
  refine ⟨?_, rfl⟩
  cases ov with
  | none =>
    cases friendly with
    | none => simp [mkSensor, derive_name, spec_display_name, pyTruthy, Option.filter]
    | some f =>
      by_cases hf : f = "" <;>
        simp [mkSensor, derive_name, spec_display_name, pyTruthy, Option.filter, hf]
  | some a =>
    by_cases ha : a = ""
    · cases friendly with
      | none => simp [mkSensor, derive_name, spec_display_name, pyTruthy, Option.filter, ha]
      | some f =>
        by_cases hf : f = "" <;>
          simp [mkSensor, derive_name, spec_display_name, pyTruthy, Option.filter, ha, hf]
    · simp [mkSensor, derive_name, spec_display_name, pyTruthy, Option.filter, ha]

/-- C8 counterexample: with alias `WAN RX` the derived name is
`WAN RX (skaliert)` and not `WAN RX (scaled)` — the marker in the code is
the German `(skaliert)`, refuting the claimed `(scaled)` marker. -/
theorem C8_marker_is_skaliert :
    derive_name (some "WAN RX") none "sensor.wan.rx" = "WAN RX (skaliert)"
    ∧ derive_name (some "WAN RX") none "sensor.wan.rx" ≠ "WAN RX (scaled)" := by
  constructor <;> decide

/-- C9: whenever the cached display value is absent or NaN, the attribute
map is exactly the metadata map with the display string omitted — the
fixed-point formatter is never reached on NaN, and the attribute property
is a total function, so no exception can escape. -/
theorem C9_nan_display_omitted (src mode : String) (prec : ℕ) (kb mb : ℚ)
    (c : DisplayCache) (hp : prec ≤ 4)
    (h : c.display_value = none ∨ c.display_value = some PyFloat.nan) :
    extra_state_attributes src mode prec kb mb c
      = ⟨src, c.display_unit, mode, prec, kb, mb, none⟩ := by
  rcases h with h | h <;> simp [extra_state_attributes, h, isNanB]

/-- Witness for C9: a NaN cached reading with the default configuration. -/
theorem C9_nan_display_omitted_witness :
    extra_state_attributes "sensor.wan.rx" MODE_DYNAMIC_UNIT 2 1000 1000000
        ⟨"bit/s", some PyFloat.nan⟩
      = ⟨"sensor.wan.rx", "bit/s", MODE_DYNAMIC_UNIT, 2, 1000, 1000000, none⟩ :=
  C9_nan_display_omitted "sensor.wan.rx" MODE_DYNAMIC_UNIT 2 1000 1000000
    ⟨"bit/s", some PyFloat.nan⟩ (by norm_num) (Or.inr rfl)

/-- Helper: sorting is invariant under permutation of the input. -/
theorem sortedStrings_perm_eq (l1 l2 : List String) (hp : l1.Perm l2) :
    sortedStrings l1 = sortedStrings l2 :=
  List.eq_of_perm_of_sorted
    ((List.perm_insertionSort _ l1).trans (hp.trans (List.perm_insertionSort _ l2).symm))
    (List.sorted_insertionSort _ l1) (List.sorted_insertionSort _ l2)

/-- C10 (amended): the unique id — the SHA-1 hex digest of the comma-joined
sorted source list — is invariant under permutation of the selected
sources, and a second submission whose unique id is already configured
aborts instead of creating an entry.  Distinctness for different source
sets does not hold in general (see the comma-join counterexample). -/
theorem C10_unique_id_permutation_invariant :
    (∀ l1 l2 : List String, l1.Perm l2 → uniqueId l1 = uniqueId l2)
    ∧ (∀ candidates configured (inp : UserInput), inp.sources ≠ [] →
        uniqueId inp.sources ∈ configured →
        async_step_user candidates configured (some inp)
          = FlowResult.abortAlreadyConfigured) := by
  constructor
  · intro l1 l2 hp
    unfold uniqueId
    rw [sortedStrings_perm_eq l1 l2 hp]
  · intro cand conf inp hne hmem
    simp [async_step_user, hne, hmem]

/-- Witness for C10 (amended): swapping two sources keeps the unique id,
and resubmitting an already-configured selection aborts. -/
theorem C10_unique_id_permutation_invariant_witness :
    uniqueId ["sensor.wan.rx", "sensor.wan.tx"] = uniqueId ["sensor.wan.tx", "sensor.wan.rx"]
    ∧ async_step_user [] [uniqueId ["sensor.wan.rx", "sensor.wan.tx"]]
        (some ⟨MODE_FIXED_WITH_ATTR, 2, 1000, 1000000,
          ["sensor.wan.rx", "sensor.wan.tx"]⟩)
      = FlowResult.abortAlreadyConfigured :=
  ⟨C10_unique_id_permutation_invariant.1 _ _ (List.Perm.swap _ _ _),
   C10_unique_id_permutation_invariant.2 _ _ _ (by decide) (List.mem_singleton.mpr rfl)⟩

/-- C10 counterexample: the selections `["a,b"]` (one source whose id
contains a comma) and `["a", "b"]` have different source sets but the same
comma-joined sorted string, hence the same unique id — refuting the claim
that a different source set always yields a distinct entry. -/
theorem C10_comma_join_collision :
    uniqueId ["a,b"] = uniqueId ["a", "b"]
    ∧ ("a" ∈ ["a", "b"] ∧ "a" ∉ (["a,b"] : List String)) := by
  constructor
  · have h1 : sortedStrings ["a,b"] = ["a,b"] := rfl
    have h2 : sortedStrings (["a", "b"] : List String) = ["a", "b"] := by
      simp [sortedStrings, List.insertionSort, List.orderedInsert]
      decide
    unfold uniqueId
    rw [h1, h2]
    exact congrArg sha1hex (by decide)
  · decide
